import Mathlib

/-!
Verification of the pet-shop catalog backend (`app.py`,
`pets/models/pet_model.py`, `pets/utils/api_utils.py`) against its
natural-language specification.

The Python code is dynamically typed, so pet attributes are embedded as a
`PyVal` type covering the Python values the code actually manipulates
(`None`, `bool`, `int`, `float`, `str`); floats are modelled as rationals.
Exceptions are embedded as `Except` results carrying a `PyErr`, and the
database session is embedded as an explicit list of persisted rows that
every stateful operation threads through.
-/

/-- A dynamically typed Python value, restricted to the types the pet code
touches. Python floats are modelled as rationals. -/
inductive PyVal where
  | none
  | bool (b : Bool)
  | int (n : Int)
  | float (q : ℚ)
  | str (s : String)
deriving DecidableEq, Repr

/-- Python truthiness (`bool(v)`): `None` and zero values and the empty
string are falsy, everything else is truthy. -/
def PyVal.truthy : PyVal → Bool
  | .none => false
  | .bool b => b
  | .int n => n ≠ 0
  | .float q => q ≠ 0
  | .str s => s ≠ ""

/-- Numeric view of a Python value: `bool` counts as `0`/`1` because in
Python `bool` is a subclass of `int`. Non-numbers have no numeric view. -/
def PyVal.asNum : PyVal → Option ℚ
  | .bool b => some (if b then 1 else 0)
  | .int n => some (n : ℚ)
  | .float q => some q
  | _ => Option.none

/-- `isinstance(v, str)`. -/
def PyVal.isStr : PyVal → Bool
  | .str _ => true
  | _ => false

/-- `isinstance(v, bool)`. -/
def PyVal.isBool : PyVal → Bool
  | .bool _ => true
  | _ => false

/-- `isinstance(v, int)`; `True`/`False` are instances of `int` in Python. -/
def PyVal.isInt : PyVal → Bool
  | .bool _ => true
  | .int _ => true
  | _ => false

/-- `isinstance(v, (int, float))`. -/
def PyVal.isNum : PyVal → Bool
  | .bool _ => true
  | .int _ => true
  | .float _ => true
  | _ => false

/-- Python `a <= b`. Defined on two numbers or two strings; any other
mixed comparison raises `TypeError`, modelled as `Option.none`. -/
def pyLe (a b : PyVal) : Option Bool :=
  match a.asNum, b.asNum with
  | some x, some y => some (decide (x ≤ y))
  | _, _ =>
    match a, b with
    | .str s, .str t => some (decide (s ≤ t))
    | _, _ => Option.none

/-- Python `s.strip()`: remove leading and trailing whitespace. -/
def pyStrip (s : String) : String :=
  ⟨((s.data.dropWhile Char.isWhitespace).reverse.dropWhile
      Char.isWhitespace).reverse⟩

/-- The exceptions the embedded code can raise. `kwArgRepeated` stands for
the `SyntaxError: keyword argument repeated` that Python reports when
compiling a call with a duplicated keyword argument. -/
inductive PyErr where
  | valueError (msg : String)
  | typeError
  | kwArgRepeated
deriving DecidableEq, Repr

/-- A pet entity as the Python object holds it: every attribute is a
dynamically typed value (embeds the attribute assignments of
`Pet.__init__`, pet_model.py lines 82-88). -/
structure Pet where
  name : PyVal
  age : PyVal
  breed : PyVal
  weight : PyVal
  kid_friendly : PyVal
  price : PyVal
  size : PyVal
deriving DecidableEq, Repr

/-- Embeds `Pet.validate` (pet_model.py lines 33-64): the chain of
`if not field or ... : raise ValueError(...)` checks, in source order
name, age, breed, weight, kid_friendly, price, size. The numeric checks
evaluate `field <= 0` only when the field is truthy, exactly as Python
short-circuits the `or`; comparing a truthy non-number with `0` raises
`TypeError`. -/
def Pet.validate (p : Pet) : Except PyErr Unit :=
  if ¬ p.name.truthy ∨ ¬ p.name.isStr then
    .error (.valueError "Name must be a non-empty string.")
  else if ¬ p.age.truthy then
    .error (.valueError "Age must be a positive integer.")
  else match pyLe p.age (PyVal.int 0) with
  | Option.none => .error PyErr.typeError
  | some true => .error (.valueError "Age must be a positive integer.")
  | some false =>
    if ¬ p.age.isInt then
      .error (.valueError "Age must be a positive integer.")
    else if ¬ p.breed.truthy ∨ ¬ p.breed.isStr then
      .error (.valueError "Breed must be a non-empty string.")
    else if ¬ p.weight.truthy then
      .error (.valueError "Weight must be a positive number.")
    else match pyLe p.weight (PyVal.int 0) with
    | Option.none => .error PyErr.typeError
    | some true => .error (.valueError "Weight must be a positive number.")
    | some false =>
      if ¬ p.weight.isNum then
        .error (.valueError "Weight must be a positive number.")
      else if ¬ p.kid_friendly.truthy ∨ ¬ p.kid_friendly.isBool then
        .error (.valueError "Kid-friendly must be 1 or 0.")
      else if ¬ p.price.truthy then
        .error (.valueError "Price must be a positive number.")
      else match pyLe p.price (PyVal.int 0) with
      | Option.none => .error PyErr.typeError
      | some true => .error (.valueError "Price must be a positive number.")
      | some false =>
        if ¬ p.price.isNum then
          .error (.valueError "Price must be a positive number.")
        else if ¬ p.size.truthy ∨ ¬ p.size.isStr then
          .error (.valueError "Size must be a non-empty string.")
        else .ok ()

/-- The message of the `ValueError` raised by `Pet.get_size` on a negative
weight (pet_model.py line 112). -/
def invalidWeightMsg (w : ℚ) : String :=
  "Invalid weight: " ++ toString w ++ ". Weight must be at least 0."

/-- Embeds `Pet.get_size` (pet_model.py lines 90-113): classify a weight
into SMALL / MEDIUM / LARGE / XLARGE, raising `ValueError` below 0. -/
def Pet.get_size (weight : ℚ) : Except PyErr String :=
  if weight ≥ 90 then .ok "XLARGE"
  else if weight ≥ 55 then .ok "LARGE"
  else if weight ≥ 20 then .ok "MEDIUM"
  else if weight ≥ 0 then .ok "SMALL"
  else .error (.valueError (invalidWeightMsg weight))

/-- `Pet.get_size` applied to a dynamically typed weight: the comparisons
inside `get_size` raise `TypeError` when the weight is not a number. -/
def Pet.get_size_py (weight : PyVal) : Except PyErr String :=
  match weight.asNum with
  | some q => Pet.get_size q
  | Option.none => .error .typeError

/-- Embeds `Pet.__init__` (pet_model.py lines 66-88): stores the given
attributes, except that `size` is always recomputed as
`Pet.get_size(weight)` (line 88) — the `size` argument is never read. -/
def Pet.init (name age breed weight kid_friendly price size : PyVal) :
    Except PyErr Pet :=
  match Pet.get_size_py weight with
  | .ok sz =>
    .ok { name := name, age := age, breed := breed, weight := weight,
          kid_friendly := kid_friendly, price := price, size := .str sz }
  | .error e => .error e

/-- A persisted row of the `pets` table. The column types follow the
schema (pet_model.py lines 24-31); `id` is the integer primary key. -/
structure PetRow where
  id : Nat
  name : String
  age : Int
  breed : String
  weight : ℚ
  kid_friendly : Bool
  price : ℚ
  size : String
deriving DecidableEq, Repr

/-- The message of the `ValueError` raised when no pet has the given id
(pet_model.py lines 190 and 248). -/
def petNotFoundMsg (pet_id : Nat) : String :=
  "Pet with ID " ++ toString pet_id ++ " not found"

/-- Embeds `Pet.get_pet_by_id` (pet_model.py lines 170-197):
`db.session.get` returns the row with the given primary key, and a missing
row raises `ValueError`. -/
def Pet.get_pet_by_id (store : List PetRow) (pet_id : Nat) :
    Except PyErr PetRow :=
  match store.find? (fun r => r.id = pet_id) with
  | some r => .ok r
  | Option.none => .error (.valueError (petNotFoundMsg pet_id))

/-- Embeds `Pet.delete` (pet_model.py lines 231-257): fetch the row by
primary key (`ValueError` if absent), then delete it and commit. -/
def Pet.delete (store : List PetRow) (pet_id : Nat) :
    Except PyErr Unit × List PetRow :=
  match store.find? (fun r => r.id = pet_id) with
  | Option.none => (.error (.valueError (petNotFoundMsg pet_id)), store)
  | some _ => (.ok (), store.filter (fun r => ¬ r.id = pet_id))

/-- The message of the `ValueError` raised by `Pet.update_price` on a
non-positive price (pet_model.py line 274). -/
def updatePriceMsg : String :=
  "Price must be a positive number. Pets can't be free!"

/-- Embeds `Pet.update_price` (pet_model.py lines 260-284): raise
`ValueError` if the new price is not positive (before touching the row),
otherwise assign `self.price` and commit the session. -/
def Pet.update_price (store : List PetRow) (self : PetRow) (new_price : ℚ) :
    Except PyErr Unit × List PetRow :=
  if new_price ≤ 0 then
    (.error (.valueError updatePriceMsg), store)
  else
    (.ok (), store.map fun r =>
      if r.id = self.id then { r with price := new_price } else r)

/-- Embeds the service part of the `update_pet_price` route
(app.py lines 335-337): fetch the pet by id, then update its price. -/
def update_pet_price (store : List PetRow) (pet_id : Nat) (new_price : ℚ) :
    Except PyErr Unit × List PetRow :=
  match Pet.get_pet_by_id store pet_id with
  | .error e => (.error e, store)
  | .ok pet => Pet.update_price store pet new_price

/-- The parameters of `Pet.__init__` (pet_model.py line 66), in order,
`self` excluded. None of them has a default value. -/
def petInitParams : List String :=
  ["name", "age", "breed", "weight", "kid_friendly", "price", "size"]

/-- The parameters of `Pet.create_pet` (pet_model.py line 116), in order,
`cls` excluded. The docstring documents a `price` argument, but the
signature has none. -/
def createPetParams : List String :=
  ["name", "breed", "age", "weight", "kid_friendly"]

/-- How Python treats a call made purely with keyword arguments: a repeated
keyword is `SyntaxError: keyword argument repeated` (reported when the
enclosing module is compiled), an unexpected keyword or a missing required
parameter is `TypeError`. -/
def pyCallCheck (params : List String) (kwargs : List (String × PyVal)) :
    Except PyErr Unit :=
  if ¬ (kwargs.map Prod.fst).Nodup then .error .kwArgRepeated
  else if ¬ (kwargs.map Prod.fst).all (fun k => params.contains k) then
    .error .typeError
  else if ¬ params.all (fun k => (kwargs.map Prod.fst).contains k) then
    .error .typeError
  else .ok ()

/-- Embeds `Pet.create_pet` (pet_model.py lines 115-168). Its constructor
call (lines 135-141) is
`Pet(name=name.strip(), weight=weight, age=age, breed=breed.strip(), age=age)`:
the keyword `age` is repeated — a `SyntaxError` when Python compiles the
module — and `kid_friendly`, `price` and `size` are required parameters of
`Pet.__init__` that the call never passes. The call can therefore never
produce a pet, and the code after it (validate, the duplicate-name check at
lines 147-152, `db.session.add` and commit) is unreachable; the second
branch below records that even with the duplicate keyword collapsed the
binding would still fail on the missing required parameters. -/
def Pet.create_pet (store : List PetRow) (name breed : String) (age : Int)
    (weight : ℚ) (kid_friendly : Bool) : Except PyErr Unit × List PetRow :=
  match pyCallCheck petInitParams
      [("name", .str (pyStrip name)), ("weight", .float weight),
       ("age", .int age), ("breed", .str (pyStrip breed)),
       ("age", .int age)] with
  | .error e => (.error e, store)
  | .ok _ => (.error .typeError, store)

/-- An HTTP response of the Flask layer: status code and message. -/
structure Resp where
  status : Nat
  message : String
deriving DecidableEq, Repr

/-- The fallback image URL `add_pet` substitutes when the image lookup
fails (app.py line 297). -/
def PLACEHOLDER : String := "https://example.com/placeholder.jpg"

/-- The JSON body of a Dog CEO API response, as the code reads it:
the values of the `status` and `message` keys, when present as strings. -/
structure DogApiBody where
  status : Option String
  message : Option String
deriving DecidableEq, Repr

/-- The outcome of the external `requests.get` call in `get_image`:
a timeout, another transport failure, or a response with an HTTP status
code and a body (`Option.none` body = not parseable as JSON, so
`response.json()` raises a `RequestException`). -/
inductive HttpOutcome where
  | timeout
  | transportError (msg : String)
  | response (status : Nat) (body : Option DogApiBody)
deriving DecidableEq, Repr

/-- The exceptions `get_image` can raise: the `RuntimeError` of the
timeout handler, the `RuntimeError` of the generic request-failure
handler, and the bare `Exception` raised when the payload's status is not
`success`. -/
inductive ImgErr where
  | timeoutErr (msg : String)
  | requestFailed (msg : String)
  | apiError (msg : String)
deriving DecidableEq, Repr

/-- Embeds `get_image` (api_utils.py lines 14-58). Source order: the GET
request (timeout 5s), `response.json()`, `response.raise_for_status()`,
the payload-status check, then `link = data.get("message", "").strip()`
and `image = str(link)` — `str` of a string never raises, so the
`except ValueError` branch at lines 39-42 is unreachable and an absent or
empty `message` is returned as the empty string. -/
def get_image (outcome : HttpOutcome) : Except ImgErr String :=
  match outcome with
  | .timeout => .error (.timeoutErr "Request to dog api timed out.")
  | .transportError m =>
    .error (.requestFailed ("Request to dog api failed: " ++ m))
  | .response status body =>
    match body with
    | Option.none =>
      .error (.requestFailed "Request to dog api failed: invalid JSON body")
    | some data =>
      if 400 ≤ status then
        .error (.requestFailed
          ("Request to dog api failed: HTTP error " ++ toString status))
      else if data.status = some "success" then
        .ok (pyStrip (data.message.getD ""))
      else
        .error (.apiError "Dog API returned error")

/-- Embeds the `add_pet` route (app.py lines 278-310) for a request whose
JSON body carries the six typed fields. `imageRes` is the outcome of the
`get_image` call: on any exception the placeholder URL is substituted
(lines 293-297). The presence check (line 299) tests the truthiness of
name, age and breed and that weight, kid_friendly and price are not None.
The call to `Pet.create_pet` (line 302) passes the keyword arguments
`name, breed, age, weight, kid_friendly, price, image`, of which `price`
and `image` are not parameters of `create_pet`; a `ValueError` maps to
400, any other exception to a 500 "Error adding pet". -/
def add_pet (store : List PetRow) (name : String) (age : Int)
    (breed : String) (weight : ℚ) (kid_friendly : Bool) (price : ℚ)
    (imageRes : Except ImgErr String) : Resp × List PetRow :=
  let image := match imageRes with
    | .ok url => url
    | .error _ => PLACEHOLDER
  if name = "" ∨ age = 0 ∨ breed = "" then
    ({ status := 400, message := "Missing required pet data" }, store)
  else
    match pyCallCheck createPetParams
        [("name", .str name), ("breed", .str breed), ("age", .int age),
         ("weight", .float weight), ("kid_friendly", .bool kid_friendly),
         ("price", .float price), ("image", .str image)] with
    | .error (.valueError m) => ({ status := 400, message := m }, store)
    | .error _ => ({ status := 500, message := "Error adding pet" }, store)
    | .ok _ =>
      match Pet.create_pet store name breed age weight kid_friendly with
      | (.error (.valueError m), st) => ({ status := 400, message := m }, st)
      | (.error _, st) => ({ status := 500, message := "Error adding pet" }, st)
      | (.ok _, st) =>
        ({ status := 201, message := "Pet added successfully" }, st)

/-- A pet record whose fields carry the types the schema declares; the
validation rules of the specification speak about such records. -/
structure TypedPet where
  name : String
  age : Int
  breed : String
  weight : ℚ
  kid_friendly : Bool
  price : ℚ
  size : String
deriving DecidableEq, Repr

/-- The Python object a `TypedPet` denotes. -/
def TypedPet.toPet (t : TypedPet) : Pet :=
  { name := .str t.name, age := .int t.age, breed := .str t.breed,
    weight := .float t.weight, kid_friendly := .bool t.kid_friendly,
    price := .float t.price, size := .str t.size }

/-- C1: for every weight w, `get_size` returns SMALL iff 0 ≤ w < 20,
MEDIUM iff 20 ≤ w < 55, LARGE iff 55 ≤ w < 90, XLARGE iff w ≥ 90, and for
every w < 0 it raises `ValueError` with the message that the weight must
be at least 0. -/
theorem get_size_classification (w : ℚ) :
    (Pet.get_size w = .ok "SMALL" ↔ 0 ≤ w ∧ w < 20) ∧
    (Pet.get_size w = .ok "MEDIUM" ↔ 20 ≤ w ∧ w < 55) ∧
    (Pet.get_size w = .ok "LARGE" ↔ 55 ≤ w ∧ w < 90) ∧
    (Pet.get_size w = .ok "XLARGE" ↔ 90 ≤ w) ∧
    (w < 0 → Pet.get_size w = .error (.valueError (invalidWeightMsg w))) := by
  unfold Pet.get_size
  split_ifs with h1 h2 h3 h4
  · refine ⟨?_, ?_, ?_, ?_, ?_⟩
    · exact iff_of_false (by simp) (by rintro ⟨-, h⟩; linarith)
    · exact iff_of_false (by simp) (by rintro ⟨-, h⟩; linarith)
    · exact iff_of_false (by simp) (by rintro ⟨-, h⟩; linarith)
    · exact iff_of_true rfl h1
    · exact fun h => absurd h (by linarith)
  · refine ⟨?_, ?_, ?_, ?_, ?_⟩
    · exact iff_of_false (by simp) (by rintro ⟨-, h⟩; linarith)
    · exact iff_of_false (by simp) (by rintro ⟨-, h⟩; linarith)
    · exact iff_of_true rfl ⟨h2, not_le.mp h1⟩
    · exact iff_of_false (by simp) h1
    · exact fun h => absurd h (by linarith)
  · refine ⟨?_, ?_, ?_, ?_, ?_⟩
    · exact iff_of_false (by simp) (by rintro ⟨-, h⟩; linarith)
    · exact iff_of_true rfl ⟨h3, not_le.mp h2⟩
    · exact iff_of_false (by simp) (by rintro ⟨h, -⟩; exact h2 h)
    · exact iff_of_false (by simp) h1
    · exact fun h => absurd h (by linarith)
  · refine ⟨?_, ?_, ?_, ?_, ?_⟩
    · exact iff_of_true rfl ⟨h4, not_le.mp h3⟩
    · exact iff_of_false (by simp) (by rintro ⟨h, -⟩; exact h3 h)
    · exact iff_of_false (by simp) (by rintro ⟨h, -⟩; exact h2 h)
    · exact iff_of_false (by simp) h1
    · exact fun h => absurd h (not_lt.mpr h4)
  · refine ⟨?_, ?_, ?_, ?_, ?_⟩
    · exact iff_of_false (by simp) (by rintro ⟨h, -⟩; exact h4 h)
    · exact iff_of_false (by simp) (by rintro ⟨h, -⟩; exact h4 (by linarith))
    · exact iff_of_false (by simp) (by rintro ⟨h, -⟩; exact h4 (by linarith))
    · exact iff_of_false (by simp) (fun h => h4 (by linarith))
    · exact fun _ => rfl

/-- Witness for C1: the classification at the concrete weights -1 and 25. -/
theorem get_size_classification_witness :
    Pet.get_size (-1) = .error (.valueError (invalidWeightMsg (-1))) ∧
    Pet.get_size 25 = .ok "MEDIUM" :=
  ⟨(get_size_classification (-1)).2.2.2.2 (by norm_num),
   (get_size_classification 25).2.1.mpr (by norm_num)⟩

/-- C10: for every weight w ≥ 0 and every value passed as the `size`
argument, the constructed pet's size equals the classification of w, and
the constructor's result does not depend on the `size` argument at all. -/
theorem init_ignores_size_argument (w : ℚ) (h : 0 ≤ w)
    (n a b k pr s s2 : PyVal) :
    ∃ sz, Pet.get_size w = .ok sz ∧
      Pet.init n a b (.float w) k pr s =
        .ok { name := n, age := a, breed := b, weight := .float w,
              kid_friendly := k, price := pr, size := .str sz } ∧
      Pet.init n a b (.float w) k pr s =
        Pet.init n a b (.float w) k pr s2 := by
  have hx : ∃ sz, Pet.get_size w = .ok sz := by
    unfold Pet.get_size
    split_ifs with h1 h2 h3
    · exact ⟨_, rfl⟩
    · exact ⟨_, rfl⟩
    · exact ⟨_, rfl⟩
    · exact ⟨_, rfl⟩
  obtain ⟨sz, hsz⟩ := hx
  refine ⟨sz, hsz, ?_, rfl⟩
  simp [Pet.init, Pet.get_size_py, PyVal.asNum, hsz]

/-- Witness for C10: a pet built with weight 25 and the wrong caller-supplied
size XLARGE still gets the derived size. -/
theorem init_ignores_size_argument_witness :
    ∃ sz, Pet.get_size 25 = .ok sz ∧
      Pet.init (.str "Bella") (.int 3) (.str "Beagle") (.float 25)
          (.bool true) (.float 300) (.str "XLARGE") =
        .ok { name := .str "Bella", age := .int 3, breed := .str "Beagle",
              weight := .float 25, kid_friendly := .bool true,
              price := .float 300, size := .str sz } ∧
      Pet.init (.str "Bella") (.int 3) (.str "Beagle") (.float 25)
          (.bool true) (.float 300) (.str "XLARGE") =
        Pet.init (.str "Bella") (.int 3) (.str "Beagle") (.float 25)
          (.bool true) (.float 300) (.str "") :=
  init_ignores_size_argument 25 (by norm_num) (.str "Bella") (.int 3)
    (.str "Beagle") (.bool true) (.float 300) (.str "XLARGE") (.str "")

/-- C7: for a stored pet, a non-positive new price fails with the
validation `ValueError` and leaves the store unchanged; a positive new
price updates that pet's price (touching no other row); a missing id
fails with the not-found error and leaves the store unchanged. -/
theorem update_price_spec (store : List PetRow) (i : Nat) (p : ℚ) :
    ((∃ r ∈ store, r.id = i) → p ≤ 0 →
      update_pet_price store i p =
        (.error (.valueError updatePriceMsg), store)) ∧
    ((∃ r ∈ store, r.id = i) → 0 < p →
      ∃ st2, update_pet_price store i p = (.ok (), st2) ∧
        st2.length = store.length ∧
        (∀ r2 ∈ st2, r2.id = i → r2.price = p) ∧
        (∀ r2 ∈ st2, r2.id ≠ i → r2 ∈ store)) ∧
    ((¬ ∃ r ∈ store, r.id = i) →
      update_pet_price store i p =
        (.error (.valueError (petNotFoundMsg i)), store)) := by
  cases hf : store.find? (fun r => r.id = i) with
  | none =>
    have hne : ¬ ∃ r ∈ store, r.id = i := by
      rintro ⟨r, hr, hid⟩
      have hr2 := List.find?_eq_none.mp hf r hr
      simp [hid] at hr2
    refine ⟨fun hex => absurd hex hne, fun hex => absurd hex hne, fun _ => ?_⟩
    simp [update_pet_price, Pet.get_pet_by_id, hf]
  | some pet =>
    have hid : pet.id = i := by simpa using List.find?_some hf
    refine ⟨fun _ hp => ?_, fun _ hp => ?_, fun hne => ?_⟩
    · simp [update_pet_price, Pet.get_pet_by_id, hf, Pet.update_price, hp]
    · refine ⟨store.map (fun r =>
        if r.id = pet.id then { r with price := p } else r), ?_, ?_, ?_, ?_⟩
      · simp [update_pet_price, Pet.get_pet_by_id, hf, Pet.update_price,
          not_le.mpr hp]
      · simp
      · intro r2 hr2 hid2
        obtain ⟨r, hr, hfr⟩ := List.mem_map.mp hr2
        by_cases hcase : r.id = pet.id
        · rw [if_pos hcase] at hfr
          subst hfr
          rfl
        · rw [if_neg hcase] at hfr
          subst hfr
          exact absurd (hid2.trans hid.symm) hcase
      · intro r2 hr2 hid2
        obtain ⟨r, hr, hfr⟩ := List.mem_map.mp hr2
        by_cases hcase : r.id = pet.id
        · rw [if_pos hcase] at hfr
          subst hfr
          exact absurd (hcase.trans hid) hid2
        · rw [if_neg hcase] at hfr
          subst hfr
          exact hr
    · exact absurd ⟨pet, List.mem_of_find?_eq_some hf, hid⟩ hne

/-- A concrete stored row used by the witnesses. -/
def fluffyRow : PetRow :=
  { id := 1, name := "Fluffy", age := 2, breed := "Golden Retriever",
    weight := 65, kid_friendly := true, price := 500, size := "LARGE" }

/-- Witness for C7: on a store holding one pet with id 1and price 500,
updating with -5 fails and keeps the store, updating id 2 is not found,
and updating with 1000 succeeds. -/
theorem update_price_spec_witness :
    update_pet_price [fluffyRow] 1 (-5) =
      (.error (.valueError updatePriceMsg), [fluffyRow]) ∧
    update_pet_price [fluffyRow] 2 1000 =
      (.error (.valueError (petNotFoundMsg 2)), [fluffyRow]) ∧
    ∃ st2, update_pet_price [fluffyRow] 1 1000 = (.ok (), st2) ∧
      st2.length = [fluffyRow].length ∧
      (∀ r2 ∈ st2, r2.id = 1 → r2.price = 1000) ∧
      (∀ r2 ∈ st2, r2.id ≠ 1 → r2 ∈ [fluffyRow]) :=
  ⟨(update_price_spec [fluffyRow] 1 (-5)).1 ⟨fluffyRow, by simp, rfl⟩
      (by norm_num),
   (update_price_spec [fluffyRow] 2 1000).2.2 (by decide),
   (update_price_spec [fluffyRow] 1 1000).2.1 ⟨fluffyRow, by simp, rfl⟩
      (by norm_num)⟩

/-- C9: deleting a stored id succeeds and a subsequent get of that id
fails with the not-found error; deleting an absent id fails with the
not-found error. -/
theorem delete_then_get_not_found (store : List PetRow) (i : Nat) :
    ((∃ r ∈ store, r.id = i) →
      ∃ st2, Pet.delete store i = (.ok (), st2) ∧
        Pet.get_pet_by_id st2 i = .error (.valueError (petNotFoundMsg i))) ∧
    ((¬ ∃ r ∈ store, r.id = i) →
      Pet.delete store i = (.error (.valueError (petNotFoundMsg i)), store)) := by
  cases hf : store.find? (fun r => r.id = i) with
  | none =>
    have hne : ¬ ∃ r ∈ store, r.id = i := by
      rintro ⟨r, hr, hid⟩
      have hr2 := List.find?_eq_none.mp hf r hr
      simp [hid] at hr2
    exact ⟨fun hex => absurd hex hne, fun _ => by simp [Pet.delete, hf]⟩
  | some pet =>
    refine ⟨fun _ => ⟨store.filter (fun r => ¬ r.id = i), ?_, ?_⟩,
      fun hne => ?_⟩
    · simp [Pet.delete, hf]
    · have hnone : (store.filter (fun r => ¬ r.id = i)).find?
          (fun r => r.id = i) = Option.none := by
        rw [List.find?_eq_none]
        intro r hr
        have hpr := (List.mem_filter.mp hr).2
        simpa using hpr
      unfold Pet.get_pet_by_id
      rw [hnone]
    · have hid : pet.id = i := by simpa using List.find?_some hf
      exact absurd ⟨pet, List.mem_of_find?_eq_some hf, hid⟩ hne

/-- Witness for C9: deleting id 1 from the one-pet store then fetching id
1 is not found; deleting from the empty store is not found. -/
theorem delete_then_get_not_found_witness :
    (∃ st2, Pet.delete [fluffyRow] 1 = (.ok (), st2) ∧
      Pet.get_pet_by_id st2 1 = .error (.valueError (petNotFoundMsg 1))) ∧
    Pet.delete [] 1 = (.error (.valueError (petNotFoundMsg 1)), []) :=
  ⟨(delete_then_get_not_found [fluffyRow] 1).1 ⟨fluffyRow, by simp, rfl⟩,
   (delete_then_get_not_found [] 1).2 (by simp)⟩

/-- C4 (amended): over records of the declared Python field types,
`validate` checks its rules in the fixed source order name, age, breed,
weight, kid_friendly, price, size, raising `ValueError` with the message
of the first violated rule, where the implemented kid_friendly rule
demands the boolean True (False is rejected, unlike the specified
genuine-boolean rule); when every implemented rule holds it succeeds. -/
theorem validate_first_violation (t : TypedPet) :
    Pet.validate t.toPet =
      if t.name = "" then
        .error (.valueError "Name must be a non-empty string.")
      else if t.age ≤ 0 then
        .error (.valueError "Age must be a positive integer.")
      else if t.breed = "" then
        .error (.valueError "Breed must be a non-empty string.")
      else if t.weight ≤ 0 then
        .error (.valueError "Weight must be a positive number.")
      else if t.kid_friendly = false then
        .error (.valueError "Kid-friendly must be 1 or 0.")
      else if t.price ≤ 0 then
        .error (.valueError "Price must be a positive number.")
      else if t.size = "" then
        .error (.valueError "Size must be a non-empty string.")
      else .ok () := by
  obtain ⟨n, a, b, w, k, pr, s⟩ := t
  by_cases hn : n = ""
  · simp [Pet.validate, TypedPet.toPet, PyVal.truthy, PyVal.isStr,
      PyVal.isInt, PyVal.isNum, PyVal.isBool, pyLe, PyVal.asNum, hn]
  · by_cases ha : a ≤ 0
    · by_cases ha0 : a = 0
      · simp [Pet.validate, TypedPet.toPet, PyVal.truthy, PyVal.isStr,
          PyVal.isInt, PyVal.isNum, PyVal.isBool, pyLe, PyVal.asNum,
          hn, ha, ha0]
      · simp [Pet.validate, TypedPet.toPet, PyVal.truthy, PyVal.isStr,
          PyVal.isInt, PyVal.isNum, PyVal.isBool, pyLe, PyVal.asNum,
          hn, ha, ha0]
    · have ha0 : a ≠ 0 := by omega
      by_cases hb : b = ""
      · simp [Pet.validate, TypedPet.toPet, PyVal.truthy, PyVal.isStr,
          PyVal.isInt, PyVal.isNum, PyVal.isBool, pyLe, PyVal.asNum,
          hn, ha, ha0, hb]
      · by_cases hw : w ≤ 0
        · by_cases hw0 : w = 0
          · simp [Pet.validate, TypedPet.toPet, PyVal.truthy, PyVal.isStr,
              PyVal.isInt, PyVal.isNum, PyVal.isBool, pyLe, PyVal.asNum,
              hn, ha, ha0, hb, hw, hw0]
          · simp [Pet.validate, TypedPet.toPet, PyVal.truthy, PyVal.isStr,
              PyVal.isInt, PyVal.isNum, PyVal.isBool, pyLe, PyVal.asNum,
              hn, ha, ha0, hb, hw, hw0]
        · have hw0 : w ≠ 0 := fun e => hw (le_of_eq e)
          by_cases hk : k = false
          · simp [Pet.validate, TypedPet.toPet, PyVal.truthy, PyVal.isStr,
              PyVal.isInt, PyVal.isNum, PyVal.isBool, pyLe, PyVal.asNum,
              hn, ha, ha0, hb, hw, hw0, hk]
          · by_cases hp : pr ≤ 0
            · by_cases hp0 : pr = 0
              · simp [Pet.validate, TypedPet.toPet, PyVal.truthy,
                  PyVal.isStr, PyVal.isInt, PyVal.isNum, PyVal.isBool,
                  pyLe, PyVal.asNum, hn, ha, ha0, hb, hw, hw0, hk, hp, hp0]
              · simp [Pet.validate, TypedPet.toPet, PyVal.truthy,
                  PyVal.isStr, PyVal.isInt, PyVal.isNum, PyVal.isBool,
                  pyLe, PyVal.asNum, hn, ha, ha0, hb, hw, hw0, hk, hp, hp0]
            · have hp0 : pr ≠ 0 := fun e => hp (le_of_eq e)
              by_cases hs : s = ""
              · simp [Pet.validate, TypedPet.toPet, PyVal.truthy,
                  PyVal.isStr, PyVal.isInt, PyVal.isNum, PyVal.isBool,
                  pyLe, PyVal.asNum, hn, ha, ha0, hb, hw, hw0, hk, hp,
                  hp0, hs]
              · simp [Pet.validate, TypedPet.toPet, PyVal.truthy,
                  PyVal.isStr, PyVal.isInt, PyVal.isNum, PyVal.isBool,
                  pyLe, PyVal.asNum, hn, ha, ha0, hb, hw, hw0, hk, hp,
                  hp0, hs]

/-- C4 counterexample: a record satisfying every rule the claim lists
(name, age, breed, weight, price, size all fine, kid_friendly a genuine
boolean, namely False) is nevertheless rejected by `validate` with the
kid-friendly message, so validate does not succeed whenever all the
claim's rules hold. -/
theorem validate_kid_false_concrete :
    ("Fluffy" : String) ≠ "" ∧ (0 : Int) < 2 ∧
    ("Golden Retriever" : String) ≠ "" ∧ (0 : ℚ) < 65 ∧ (0 : ℚ) < 500 ∧
    ("LARGE" : String) ≠ "" ∧
    Pet.validate (TypedPet.toPet
      { name := "Fluffy", age := 2, breed := "Golden Retriever",
        weight := 65, kid_friendly := false, price := 500,
        size := "LARGE" }) =
      .error (.valueError "Kid-friendly must be 1 or 0.") := by
  refine ⟨by decide, by decide, by decide, by norm_num, by norm_num,
    by decide, ?_⟩
  rfl

/-- C5: `validate` rejects a record whose kid_friendly is the boolean
False with the kid-friendly `ValueError`, although the same record with
kid_friendly True passes every check. -/
theorem validate_rejects_false_kid_friendly :
    Pet.validate (TypedPet.toPet
      { name := "Bella", age := 3, breed := "Beagle", weight := 25,
        kid_friendly := false, price := 300, size := "MEDIUM" }) =
      .error (.valueError "Kid-friendly must be 1 or 0.") ∧
    Pet.validate (TypedPet.toPet
      { name := "Bella", age := 3, breed := "Beagle", weight := 25,
        kid_friendly := true, price := 300, size := "MEDIUM" }) =
      .ok () := by
  constructor <;> rfl

/-- The constructor invocation inside `create_pet` always fails with the
repeated-keyword error, whatever the arguments and the store: its keyword
list names `age` twice. -/
theorem create_pet_ctor_always_fails (store : List PetRow)
    (name breed : String) (age : Int) (weight : ℚ) (kf : Bool) :
    Pet.create_pet store name breed age weight kf =
      (.error .kwArgRepeated, store) := rfl

/-- C3: with a pet named Fluffy already stored, the duplicate AddPet call
fails and leaves the store unchanged, but with the constructor's
repeated-keyword error rather than the already-exists `ValueError` — the
uniqueness check of `create_pet` is unreachable. -/
theorem create_pet_duplicate_eval (store : List PetRow)
    (h : ∃ r ∈ store, r.name = "Fluffy") :
    Pet.create_pet store "Fluffy" "Golden Retriever" 2 65 true =
      (.error .kwArgRepeated, store) ∧
    ∀ msg, (Pet.create_pet store "Fluffy" "Golden Retriever" 2 65 true).1 ≠
      .error (.valueError msg) := by
  refine ⟨create_pet_ctor_always_fails store _ _ _ _ _, fun msg => ?_⟩
  rw [create_pet_ctor_always_fails]
  simp

/-- Witness for C3 at the one-pet store already holding Fluffy. -/
theorem create_pet_duplicate_eval_witness :
    Pet.create_pet [fluffyRow] "Fluffy" "Golden Retriever" 2 65 true =
      (.error .kwArgRepeated, [fluffyRow]) ∧
    ∀ msg,
      (Pet.create_pet [fluffyRow] "Fluffy" "Golden Retriever" 2 65 true).1 ≠
        .error (.valueError msg) :=
  create_pet_duplicate_eval [fluffyRow] ⟨fluffyRow, by simp, rfl⟩

/-- C2: AddPet with fully valid input (the example record of the spec)
returns the generic 500 error and persists nothing, because the call
passes `price` and `image` keywords `create_pet` does not accept and
`create_pet`'s own constructor call repeats `age`; success, and hence a
subsequent retrieval of the new record, is impossible. -/
theorem add_pet_valid_input_fails (store : List PetRow) :
    add_pet store "Bella" 3 "Beagle" 25 true 300
        (.ok "https://images.dog.ceo/breeds/beagle/n02088364_1206.jpg") =
      ({ status := 500, message := "Error adding pet" }, store) ∧
    Pet.create_pet store "Bella" "Beagle" 3 25 true =
      (.error .kwArgRepeated, store) :=
  ⟨rfl, create_pet_ctor_always_fails store _ _ _ _ _⟩

/-- C6: when the image lookup fails, `add_pet` substitutes the placeholder
URL (the run is identical to one handed the placeholder directly), yet the
pet is still not created: the route answers 500 and the store is
unchanged, so no stored record carries the placeholder image. -/
theorem add_pet_image_failure_eval (store : List PetRow) (e : ImgErr) :
    add_pet store "Bella" 3 "Beagle" 25 true 300 (.error e) =
      add_pet store "Bella" 3 "Beagle" 25 true 300 (.ok PLACEHOLDER) ∧
    add_pet store "Bella" 3 "Beagle" 25 true 300 (.error e) =
      ({ status := 500, message := "Error adding pet" }, store) :=
  ⟨rfl, rfl⟩

/-- C8: a 200 response whose payload reports success but carries no
message URL makes `get_image` return the empty string instead of failing
with an invalid-response error (the `str(link)` sanity check can never
raise); the timeout path raises the timeout RuntimeError as specified. -/
theorem get_image_eval :
    get_image (.response 200 (some ⟨some "success", Option.none⟩)) =
      .ok "" ∧
    get_image .timeout =
      .error (.timeoutErr "Request to dog api timed out.") :=
  ⟨rfl, rfl⟩
